import Mathlib

/-!
Verification development for the deno_store hybrid authentication subsystem.

Shallow embedding of the TypeScript sources:
- `src/db.ts` / `src/unnamed/part_013` (`SqliteAdapter`, the implemented
  `createOrder` variant lives in `part_013`),
- `src/jwt.ts` (`JWTService`),
- `src/session.ts` (`SessionManager`),
- `src/auth.ts` (`AuthService`, `hybridAuthMiddleware`).

Modelling conventions:
- Instants are `Nat` milliseconds since the Unix epoch (`Date.now()`).
  JSON Web Token lifetimes ("15m", "7d") are kept in milliseconds; the
  second-granularity rounding of the `jsonwebtoken` library is immaterial
  to every property proved here.
- SQLite `REAL` prices are modelled as `ℚ` (exact arithmetic).
- `jsonwebtoken`'s `sign`/`verify` are modelled as an ideal signature
  scheme: a signed token records its claim set and the key that signed it;
  `verify` succeeds exactly when the key matches and the token is not
  expired (`jsonwebtoken` treats `now ≥ exp` as expired).
- `bcrypt` is modelled as an ideal injective hash: `compare` succeeds
  exactly on the hashed password.

A crucial faithfulness point about time comparisons in SQL:
the adapter stores `expires_at` as `Date.prototype.toISOString()` text
("YYYY-MM-DDTHH:MM:SS.sssZ", UTC) and compares it with
`expires_at > datetime('now')`, where SQLite's `datetime('now')` renders
"YYYY-MM-DD HH:MM:SS" (UTC).  The column has no numeric value, so SQLite
compares the two TEXT values with memcmp.  Both layouts agree on the
first ten characters (the date); at index 10 the stored value has 'T'
(0x54) and `datetime('now')` has ' ' (0x20).  Hence for timestamps in
years 1000-9999 the comparison reduces exactly to: stored ISO text >
`datetime('now')` text  ⟺  UTC-day(stored) ≥ UTC-day(now).  That
day-granularity comparison is what `isoGtSqlNow` implements.
-/

namespace DenoStore

/-- Milliseconds per UTC day. -/
def msPerDay : Nat := 24 * 60 * 60 * 1000

/-- UTC day index of an epoch-milliseconds instant. -/
def utcDay (t : Nat) : Nat := t / msPerDay

/-- The SQL predicate `stored_column > datetime('now')` where the column
holds `toISOString()` text (see the header comment for the derivation of
the day-granularity semantics). -/
def isoGtSqlNow (stored now : Nat) : Bool := utcDay now ≤ utcDay stored

/-- Row of `users` (src/db.ts `CREATE TABLE users`).  The table has no
`role` column, so rows loaded from the store have `role = none`; the
`User` interface of `src/schema.ts` declares the field, hence `Option`. -/
structure User where
  id : Nat
  username : String
  email : String
  password_hash : String
  created_at : String
  role : Option String
deriving Repr, DecidableEq

/-- Row of `sessions` (`created_at` column elided: no claim reads it). -/
structure SessionRow where
  id : String
  user_id : Nat
  expires_at : Nat
deriving Repr, DecidableEq

/-- Row of `revoked_tokens`. -/
structure RevokedRow where
  jti : String
  revoked_at : Nat
  expires_at : Nat
deriving Repr, DecidableEq

/-- Row of `products` (`description`, `image_url` elided: no claim reads
them). -/
structure Product where
  id : Nat
  name : String
  price : ℚ
  stock_quantity : Nat
deriving Repr, DecidableEq

/-- Row of `orders` (`created_at` elided). -/
structure OrderRow where
  id : Nat
  user_id : Nat
  total_amount : ℚ
  status : String
deriving Repr, DecidableEq

/-- Row of `order_items` (surrogate `id` column elided). -/
structure OrderItemRow where
  order_id : Nat
  product_id : Nat
  quantity : Nat
  price : ℚ
deriving Repr, DecidableEq

/-- The `Order` value returned by `getOrderById`: the header row joined
with its items. -/
structure Order where
  id : Nat
  user_id : Nat
  total_amount : ℚ
  status : String
  items : List OrderItemRow
deriving Repr, DecidableEq

/-- An item of a `createOrder` request. -/
structure OrderItemReq where
  productId : Nat
  quantity : Nat
deriving Repr, DecidableEq

/-- The durable store owned by `SqliteAdapter`.  `nextUserId` /
`nextOrderId` model the `AUTOINCREMENT` counters (`lastID`). -/
structure DBState where
  users : List User
  nextUserId : Nat
  sessions : List SessionRow
  revoked_tokens : List RevokedRow
  products : List Product
  orders : List OrderRow
  order_items : List OrderItemRow
  nextOrderId : Nat
deriving Repr, DecidableEq

namespace SqliteAdapter

/-- `SELECT * FROM users WHERE username = ?` (first match). -/
def getUserByUsername (s : DBState) (username : String) : Option User :=
  s.users.find? (fun u => u.username == username)

/-- `SELECT * FROM users WHERE id = ?`. -/
def getUserById (s : DBState) (id : Nat) : Option User :=
  s.users.find? (fun u => u.id == id)

/-- `INSERT INTO users ... ; SELECT * FROM users WHERE id = lastID`.
`created_at DATETIME DEFAULT CURRENT_TIMESTAMP` is abstracted to `""`
(no claim reads it). -/
def createUser (s : DBState) (username email passwordHash : String) :
    User × DBState :=
  let u : User :=
    { id := s.nextUserId, username := username, email := email
      password_hash := passwordHash, created_at := "", role := none }
  (u, { s with users := s.users ++ [u], nextUserId := s.nextUserId + 1 })

/-- `INSERT INTO sessions (id, user_id, expires_at) VALUES (?, ?, ?)`. -/
def createSessionRow (s : DBState) (userId : Nat) (sessionId : String)
    (expiresAt : Nat) : DBState :=
  { s with sessions :=
      s.sessions ++ [{ id := sessionId, user_id := userId, expires_at := expiresAt }] }

/-- `SELECT * FROM sessions WHERE id = ? AND expires_at > datetime('now')`. -/
def getSession (s : DBState) (sessionId : String) (now : Nat) :
    Option SessionRow :=
  s.sessions.find? (fun r => r.id == sessionId && isoGtSqlNow r.expires_at now)

/-- `DELETE FROM sessions WHERE id = ?`. -/
def deleteSession (s : DBState) (sessionId : String) : DBState :=
  { s with sessions := s.sessions.filter (fun r => r.id != sessionId) }

/-- `SELECT 1 FROM revoked_tokens WHERE jti = ? AND expires_at > datetime('now')`. -/
def isTokenRevoked (s : DBState) (jti : String) (now : Nat) : Bool :=
  s.revoked_tokens.any (fun r => r.jti == jti && isoGtSqlNow r.expires_at now)

/-- `INSERT OR REPLACE INTO revoked_tokens (jti, expires_at) VALUES (?, ?)`
(`revoked_at DATETIME DEFAULT CURRENT_TIMESTAMP`); `jti` is the primary
key, so an existing row for the same `jti` is replaced. -/
def revokeTokenRow (s : DBState) (jti : String) (expiresAt now : Nat) :
    DBState :=
  { s with revoked_tokens :=
      s.revoked_tokens.filter (fun r => r.jti != jti) ++
        [{ jti := jti, revoked_at := now, expires_at := expiresAt }] }

/-- `SELECT * FROM products WHERE id = ?`, as a function of the product
table alone (the order-creation loop never writes `products`). -/
def findProduct (prods : List Product) (id : Nat) : Option Product :=
  prods.find? (fun p => p.id == id)

/-- `getProductById` of `SqliteAdapter`. -/
def getProductById (s : DBState) (id : Nat) : Option Product :=
  findProduct s.products id

/-- `getOrderById`: the header row plus `SELECT * FROM order_items WHERE
order_id = ?`. -/
def getOrderById (s : DBState) (id : Nat) : Option Order :=
  match s.orders.find? (fun o => o.id == id) with
  | none => none
  | some o =>
      some { id := o.id, user_id := o.user_id, total_amount := o.total_amount
             status := o.status
             items := s.order_items.filter (fun it => it.order_id == id) }

/-- The `for (const item of items)` loop of `createOrder`
(src/unnamed/part_013, lines 292-302): read the product (same
connection, inside the open transaction), throw if missing, accumulate
`totalAmount += price * quantity`, insert the `order_items` row.  The
working state `tx` is the store as seen inside the uncommitted
transaction. -/
def createOrderLoop (tx : DBState) (orderId : Nat) :
    List OrderItemReq → ℚ → Except String (DBState × ℚ)
  | [], totalAmount => .ok (tx, totalAmount)
  | item :: rest, totalAmount =>
    match findProduct tx.products item.productId with
    | none => .error ("Product " ++ toString item.productId ++ " not found")
    | some product =>
        let price := product.price
        createOrderLoop
          { tx with order_items :=
              tx.order_items ++
                [{ order_id := orderId, product_id := item.productId
                   quantity := item.quantity, price := price }] }
          orderId rest (totalAmount + price * (item.quantity : ℚ))

/-- `createOrder` (src/unnamed/part_013, lines 280-314): BEGIN IMMEDIATE,
insert the order header with `total_amount = 0`, run the item loop,
update the header's total, COMMIT and read the order back; on any
failure ROLLBACK discards every write since BEGIN (the returned state is
the pre-transaction state) and the error is rethrown.  The code checks
`if (!orderId) throw` on the `lastID` of the header insert; here the
fresh id is `s.nextOrderId`, checked before the (equivalent up to the
rollback) header insert. -/
def createOrder (s : DBState) (userId : Nat) (items : List OrderItemReq) :
    Except String Order × DBState :=
  let orderId := s.nextOrderId
  if orderId = 0 then (.error "Failed to create order", s)
  else
    let tx : DBState :=
      { s with
          orders := s.orders ++
            [{ id := orderId, user_id := userId, total_amount := 0, status := "pending" }]
          nextOrderId := orderId + 1 }
    match createOrderLoop tx orderId items 0 with
    | .error e => (.error e, s)
    | .ok (tx2, totalAmount) =>
        let tx3 : DBState :=
          { tx2 with orders := tx2.orders.map (fun o =>
              if o.id == orderId then { o with total_amount := totalAmount } else o) }
        match getOrderById tx3 orderId with
        | some order => (.ok order, tx3)
        | none => (.error "order not found", tx3)

end SqliteAdapter

/-- The claim set of a signed token (`JWTPayload` of src/jwt.ts; refresh
tokens carry only `userId` and `jti`, so `username`/`roles` are
`Option`). -/
structure JWTPayload where
  userId : Nat
  username : Option String
  roles : Option String
  jti : Option String
  iat : Nat
  exp : Nat
deriving Repr, DecidableEq

/-- A token string: either a well-formed token signed with some key, or
garbage that no verification accepts. -/
inductive Token where
  | signed (payload : JWTPayload) (key : String)
  | malformed (raw : String)
deriving Repr, DecidableEq

/-- `jwt.verify(token, key)`: succeeds exactly when the signing key
matches and the token is unexpired (`jsonwebtoken` rejects once
`now ≥ exp`); any failure is caught and turned into `null`. -/
def jwtVerify (t : Token) (key : String) (now : Nat) : Option JWTPayload :=
  match t with
  | .malformed _ => none
  | .signed p k => if k = key ∧ now < p.exp then some p else none

/-- Access-token lifetime: `expiresIn: "15m"`. -/
def accessTokenTtl : Nat := 15 * 60 * 1000

/-- Refresh-token lifetime: `expiresIn: "7d"`. -/
def refreshTokenTtl : Nat := 7 * 24 * 60 * 60 * 1000

/-- The two signing secrets of `JWTService` (src/jwt.ts). -/
structure JWTService where
  secretKey : String
  refreshSecretKey : String
deriving Repr, DecidableEq

namespace JWTService

/-- `generateTokens(user)` (src/jwt.ts, lines 25-51): mint one fresh
`tokenId` (`randomUUID()`, passed in here to keep the model
deterministic) shared by both halves; the access token carries
`userId`, `username`, `roles: user.role || "guest"`, the refresh token
only `userId` and the shared `jti`. -/
def generateTokens (svc : JWTService) (user : User) (tokenId : String)
    (now : Nat) : Token × Token :=
  ( .signed
      { userId := user.id, username := some user.username
        roles := some (user.role.getD "guest"), jti := some tokenId
        iat := now, exp := now + accessTokenTtl } svc.secretKey,
    .signed
      { userId := user.id, username := none, roles := none
        jti := some tokenId, iat := now, exp := now + refreshTokenTtl }
      svc.refreshSecretKey )

/-- `verifyAccessToken`: stateless signature + expiry check. -/
def verifyAccessToken (svc : JWTService) (t : Token) (now : Nat) :
    Option JWTPayload :=
  jwtVerify t svc.secretKey now

/-- `verifyRefreshToken`: same, with the refresh secret. -/
def verifyRefreshToken (svc : JWTService) (t : Token) (now : Nat) :
    Option JWTPayload :=
  jwtVerify t svc.refreshSecretKey now

/-- `verifyTokenStateless` is an alias of `verifyAccessToken`. -/
def verifyTokenStateless (svc : JWTService) (t : Token) (now : Nat) :
    Option JWTPayload :=
  verifyAccessToken svc t now

/-- `verifyTokenWithRevocation` (src/jwt.ts, lines 78-89): stateless
verification, then `if (payload.jti)` — a JS truthiness test, so an
empty-string `jti` skips the ledger lookup — consult
`isTokenRevoked`. -/
def verifyTokenWithRevocation (svc : JWTService) (s : DBState) (t : Token)
    (now : Nat) : Option JWTPayload :=
  match verifyAccessToken svc t now with
  | none => none
  | some payload =>
    match payload.jti with
    | some j =>
        if j ≠ "" ∧ SqliteAdapter.isTokenRevoked s j now then none
        else some payload
    | none => some payload

/-- `revokeToken(jti)` (src/jwt.ts, lines 91-93): calls
`db.revokeToken(jti, new Date(Date.now()))` — the ledger row's
`expires_at` is the CURRENT time, not the token's `exp`. -/
def revokeToken (_svc : JWTService) (s : DBState) (jti : String)
    (now : Nat) : DBState :=
  SqliteAdapter.revokeTokenRow s jti now now

end JWTService

namespace SessionManager

/-- `createSession(userId)` (src/session.ts): random id (passed in),
24-hour expiry. -/
def createSession (s : DBState) (userId : Nat) (sessionId : String)
    (now : Nat) : String × DBState :=
  (sessionId, SqliteAdapter.createSessionRow s userId sessionId (now + msPerDay))

/-- `validateSession(sessionId)`: session lookup (with the SQL expiry
check), then load the user. -/
def validateSession (s : DBState) (sessionId : String) (now : Nat) :
    Option User :=
  match SqliteAdapter.getSession s sessionId now with
  | none => none
  | some sess => SqliteAdapter.getUserById s sess.user_id

/-- `validateJWTSession(token, requireDbCheck)` (src/session.ts, lines
44-67): without the store check, a `User`-shaped value is synthesized
from the claims alone (`email`/`password_hash` empty, `created_at` a
rendering of the current date — abstracted to `""` — and no `role`);
with it, verify with revocation and re-fetch the row. -/
def validateJWTSession (svc : JWTService) (s : DBState) (t : Token)
    (requireDbCheck : Bool) (now : Nat) : Option User :=
  let payload :=
    if requireDbCheck then JWTService.verifyTokenWithRevocation svc s t now
    else JWTService.verifyTokenStateless svc t now
  match payload with
  | none => none
  | some p =>
      if requireDbCheck then SqliteAdapter.getUserById s p.userId
      else
        some { id := p.userId, username := p.username.getD ""
               email := "", password_hash := "", created_at := "", role := none }

/-- `refreshJWTTokens(refreshToken)` (src/session.ts, lines 69-82):
verify the refresh token (signature + expiry only — the ledger is NOT
consulted), load the user, revoke the old `jti`, mint a fresh pair with
a new token id (`newTokenId` stands for the `randomUUID()` call inside
`generateTokens`).  Tokens minted by `generateTokens` always carry a
`jti`; the `none` branch is unreachable for them. -/
def refreshJWTTokens (svc : JWTService) (s : DBState) (refreshToken : Token)
    (now : Nat) (newTokenId : String) :
    Option (Token × Token) × DBState :=
  match JWTService.verifyRefreshToken svc refreshToken now with
  | none => (none, s)
  | some payload =>
    match SqliteAdapter.getUserById s payload.userId with
    | none => (none, s)
    | some user =>
        let s' := match payload.jti with
          | some j => JWTService.revokeToken svc s j now
          | none => s
        (some (JWTService.generateTokens svc user newTokenId now), s')

/-- `destroySession(sessionId)`: delete the row. -/
def destroySession (s : DBState) (sessionId : String) : DBState :=
  SqliteAdapter.deleteSession s sessionId

/-- `destroyJWTSession(token)` (src/session.ts, lines 88-93): stateless
verification; `if (payload?.jti)` — JS truthiness, so a missing or
empty `jti` means no ledger write — then revoke. -/
def destroyJWTSession (svc : JWTService) (s : DBState) (t : Token)
    (now : Nat) : DBState :=
  match JWTService.verifyAccessToken svc t now with
  | none => s
  | some payload =>
    match payload.jti with
    | some j => if j ≠ "" then JWTService.revokeToken svc s j now else s
    | none => s

end SessionManager

/-- `SqliteAdapter.revokeToken(jti, expiresAt)` as invoked from
JavaScript, where a caller may omit `expiresAt` (it is then
`undefined`): the body evaluates `expiresAt.toISOString()` while
building the parameter list, BEFORE the INSERT runs, so an omitted
argument raises a TypeError and no row is written; with the argument
present it is the upsert `revokeTokenRow`.  The pair's first component
is the call's outcome (`error` = exception propagated to the caller),
the second the resulting store. -/
def SqliteAdapter.revokeToken (s : DBState) (jti : String)
    (expiresAt : Option Nat) (now : Nat) : Except String Unit × DBState :=
  match expiresAt with
  | none => (.error "TypeError: undefined has no method toISOString", s)
  | some e => (.ok (), SqliteAdapter.revokeTokenRow s jti e now)

/-- `revokeToken(jti)` of the `JWTService` copy in src/auth.ts (lines
93-95): `await this.db.revokeToken(jti)` — the required `expiresAt`
argument is omitted, so at run time the adapter receives `undefined`
for it. -/
def JWTService.revokeTokenAuthTs (_svc : JWTService) (s : DBState)
    (jti : String) (now : Nat) : Except String Unit × DBState :=
  SqliteAdapter.revokeToken s jti none now

/-- `destroyJWTSession(token)` of `HybridSessionManager` in src/auth.ts
(lines 172-177): same shape as the src/session.ts variant — stateless
verification, then `if (payload?.jti)` (JS truthiness) — but the revoke
it awaits is the src/auth.ts `JWTService.revokeToken`, whose missing
`expiresAt` argument makes the awaited call reject. -/
def HybridSessionManager.destroyJWTSession (svc : JWTService) (s : DBState)
    (t : Token) (now : Nat) : Except String Unit × DBState :=
  match JWTService.verifyAccessToken svc t now with
  | none => (.ok (), s)
  | some payload =>
    match payload.jti with
    | some j =>
        if j ≠ "" then JWTService.revokeTokenAuthTs svc s j now else (.ok (), s)
    | none => (.ok (), s)

/-- Ideal model of `bcrypt.hash(plaintext, 10)`: injective in the
plaintext, so `compare` succeeds exactly on the hashed password
(spec §4.1 semantics of the external bcrypt library). -/
def bcryptHash (plaintext : String) : String := "$2b$10$" ++ plaintext

/-- Ideal model of `bcrypt.compare(plaintext, hash)`. -/
def bcryptCompare (plaintext hash : String) : Bool := hash == bcryptHash plaintext

/-- `LoginRequest` of src/schema.ts. -/
structure LoginRequest where
  username : String
  password : String
deriving Repr, DecidableEq

/-- `RegisterRequest` of src/schema.ts. -/
structure RegisterRequest where
  username : String
  email : String
  password : String
deriving Repr, DecidableEq

/-- The sanitized projection returned by `register` / `sanitizeUser`
(`Omit<User, "password_hash">`). -/
structure SanitizedUser where
  id : Nat
  username : String
  email : String
  created_at : String
deriving Repr, DecidableEq

namespace AuthService

/-- `register(data)` (src/auth.ts, lines 190-212): reject a duplicate
username before any write; otherwise hash the password, insert the row,
return the sanitized projection. -/
def register (s : DBState) (data : RegisterRequest) :
    Except String SanitizedUser × DBState :=
  match SqliteAdapter.getUserByUsername s data.username with
  | some _ => (.error "Username already exists", s)
  | none =>
      let passwordHash := bcryptHash data.password
      let (user, s') :=
        SqliteAdapter.createUser s data.username data.email passwordHash
      (.ok { id := user.id, username := user.username, email := user.email
             created_at := user.created_at }, s')

/-- `authenticateUser(data)` (src/auth.ts, lines 243-258): absent
username and failed password comparison throw the same
`"Invalid credentials"` error. -/
def authenticateUser (s : DBState) (data : LoginRequest) :
    Except String User :=
  match SqliteAdapter.getUserByUsername s data.username with
  | none => .error "Invalid credentials"
  | some user =>
      if bcryptCompare data.password user.password_hash then .ok user
      else .error "Invalid credentials"

/-- `logoutJWT(token)` (src/auth.ts, lines 273-275): pass-through to
`this.sessionManager.destroyJWTSession` — the `sessionManager` field of
`AuthService` is a `HybridSessionManager` (src/auth.ts line 186), so
the chain reached is the src/auth.ts one. -/
def logoutJWT (svc : JWTService) (s : DBState) (t : Token) (now : Nat) :
    Except String Unit × DBState :=
  HybridSessionManager.destroyJWTSession svc s t now

end AuthService

/-- Which store-backed credential checks the middleware performed, in
order. -/
inductive Probe where
  | token
  | cookie
deriving Repr, DecidableEq

/-- The credentials an inbound request presents: the parsed
`Authorization: Bearer` token (none when the header is absent or not a
Bearer header) and the `session_id` cookie. -/
structure MWRequest where
  bearer : Option Token
  cookie_session_id : Option String
deriving Repr, DecidableEq

/-- The `options` of `hybridAuthMiddleware`. -/
structure MWOptions where
  preferJWT : Bool
  requireDbCheck : Bool
deriving Repr, DecidableEq

/-- What the middleware leaves on the request object, plus whether
`next()` ran and the ordered trace of credential checks. -/
structure MWResult where
  user : Option User
  authType : Option String
  sessionId : Option String
  accessToken : Option Token
  nextCalled : Bool
  trace : List Probe
deriving Repr, DecidableEq

/-- `hybridAuthMiddleware` (src/auth.ts, lines 298-337): try the bearer
token first (setting `authType`/`accessToken` whenever the header is
present, even if validation fails); fall back to the session cookie only
when no user was resolved and `preferJWT` is not set (setting
`authType`/`sessionId` whenever the cookie is present); always call
`next()`, never raise. -/
def hybridAuthMiddleware (svc : JWTService) (opts : MWOptions) (s : DBState)
    (now : Nat) (req : MWRequest) : MWResult :=
  let phase1 : Option User × Option String × Option Token × List Probe :=
    match req.bearer with
    | some tok =>
        (SessionManager.validateJWTSession svc s tok opts.requireDbCheck now,
         some "jwt", some tok, [Probe.token])
    | none => (none, none, none, [])
  match phase1 with
  | (user0, authType0, accessToken0, trace0) =>
    if user0 = none ∧ opts.preferJWT = false then
      match req.cookie_session_id with
      | some sid =>
          { user := SessionManager.validateSession s sid now
            authType := some "session", sessionId := some sid
            accessToken := accessToken0, nextCalled := true
            trace := trace0 ++ [Probe.cookie] }
      | none =>
          { user := user0, authType := authType0, sessionId := none
            accessToken := accessToken0, nextCalled := true, trace := trace0 }
    else
      { user := user0, authType := authType0, sessionId := none
        accessToken := accessToken0, nextCalled := true, trace := trace0 }

/-! Concrete data used by witnesses and counterexamples. -/

/-- A token service with two distinct secrets. -/
def svcX : JWTService :=
  { secretKey := "access-secret", refreshSecretKey := "refresh-secret" }

/-- A registered user. -/
def alice : User :=
  { id := 1, username := "alice", email := "alice@x.com"
    password_hash := bcryptHash "password1", created_at := "", role := none }

/-- A store holding only `alice`. -/
def dbX : DBState :=
  { users := [alice], nextUserId := 2, sessions := [], revoked_tokens := []
    products := [], orders := [], order_items := [], nextOrderId := 1 }

/-- The access half of a pair minted for `alice` at 86,000,000 ms
(day 0, 23:53:20 UTC) with token id `"j0"`. -/
def accessX : Token := (JWTService.generateTokens svcX alice "j0" 86000000).1

/-- The refresh half of the same pair. -/
def refreshX : Token := (JWTService.generateTokens svcX alice "j0" 86000000).2

/-- The claim set of `accessX`; its `exp` is 86,900,000 ms
(day 1, 00:08:20 UTC). -/
def payloadX : JWTPayload :=
  { userId := 1, username := some "alice", roles := some "guest"
    jti := some "j0", iat := 86000000, exp := 86900000 }

/-- Equality of `Except` results is decidable when both components'
are; used to evaluate the embedded operations on concrete inputs. -/
instance {ε α : Type} [DecidableEq ε] [DecidableEq α] :
    DecidableEq (Except ε α) := fun a b =>
  match a, b with
  | .error x, .error y =>
      if h : x = y then .isTrue (by rw [h])
      else .isFalse (fun hc => by cases hc; exact h rfl)
  | .ok x, .ok y =>
      if h : x = y then .isTrue (by rw [h])
      else .isFalse (fun hc => by cases hc; exact h rfl)
  | .error _, .ok _ => .isFalse (fun hc => by cases hc)
  | .ok _, .error _ => .isFalse (fun hc => by cases hc)

/-- A store with two products, used by the order-creation witnesses. -/
def shopDB : DBState :=
  { users := [alice], nextUserId := 2, sessions := [], revoked_tokens := []
    products := [{ id := 1, name := "Laptop", price := 5, stock_quantity := 10 },
                 { id := 2, name := "Mouse", price := 3, stock_quantity := 20 }]
    orders := [], order_items := [], nextOrderId := 1 }

/-- The order that `createOrder shopDB 1 [⟨1, 2⟩, ⟨2, 1⟩]` produces. -/
def shopOrder : Order :=
  { id := 1, user_id := 1, total_amount := 13, status := "pending"
    items := [{ order_id := 1, product_id := 1, quantity := 2, price := 5 },
              { order_id := 1, product_id := 2, quantity := 1, price := 3 }] }

/-- The store `createOrder shopDB 1 [⟨1, 2⟩, ⟨2, 1⟩]` leaves behind. -/
def shopDBafter : DBState :=
  { users := [alice], nextUserId := 2, sessions := [], revoked_tokens := []
    products := [{ id := 1, name := "Laptop", price := 5, stock_quantity := 10 },
                 { id := 2, name := "Mouse", price := 3, stock_quantity := 20 }]
    orders := [{ id := 1, user_id := 1, total_amount := 13, status := "pending" }]
    order_items := [{ order_id := 1, product_id := 1, quantity := 2, price := 5 },
                    { order_id := 1, product_id := 2, quantity := 1, price := 3 }]
    nextOrderId := 2 }

/-- Claim C2 (counterexample): after `revokeToken("j0")` runs at
86,399,000 ms (day 0, 23:59:59 UTC), `verifyTokenWithRevocation` on the
access token carrying `"j0"` — checked at 86,400,500 ms (day 1,
00:00:00.5 UTC), well before the token's natural expiry at
86,900,000 ms — returns the payload, NOT null: the ledger row was
written with `expires_at` equal to the revocation instant, so the
`expires_at > datetime('now')` filter of `isTokenRevoked` discards it
once the UTC day advances.  `verifyAccessToken` (stateless) also still
accepts the token, as the claim says. -/
theorem revoked_token_still_accepted :
    JWTService.verifyTokenWithRevocation svcX
        (JWTService.revokeToken svcX dbX "j0" 86399000) accessX 86400500 =
      some payloadX ∧
    JWTService.verifyAccessToken svcX accessX 86400500 = some payloadX := by
  decide

/-- Claim C3 (counterexample): the ledger row written by
`revokeToken("j0")` at 86,399,000 ms has `expires_at = 86,399,000` (the
revocation instant, from `new Date(Date.now())` in src/jwt.ts line 92),
not the access token's own `exp = 86,900,000`. -/
theorem revokeToken_writes_revocation_time :
    ((JWTService.revokeToken svcX dbX "j0" 86399000).revoked_tokens.map
        RevokedRow.expires_at) = [86399000] ∧
    payloadX.exp = 86900000 ∧ (86399000 : Nat) ≠ 86900000 := by
  decide

/-- Claim C1 (counterexample): the first `refreshJWTTokens(refreshX)`
call at 86,399,000 ms succeeds and revokes `"j0"`; yet a second call
with the SAME refresh token at 86,400,500 ms also succeeds
(`verifyRefreshToken` never consults the ledger), and even a
revocation-aware caller checking the old access token at that instant
gets a non-null payload back, because the ledger row carries the
revocation instant as `expires_at` and has already lapsed. -/
theorem refresh_token_reuse_not_rejected :
    (SessionManager.refreshJWTTokens svcX dbX refreshX 86399000 "j1").1.isSome = true ∧
    (SessionManager.refreshJWTTokens svcX
        (SessionManager.refreshJWTTokens svcX dbX refreshX 86399000 "j1").2
        refreshX 86400500 "j2").1.isSome = true ∧
    (JWTService.verifyTokenWithRevocation svcX
        (SessionManager.refreshJWTTokens svcX dbX refreshX 86399000 "j1").2
        accessX 86400500).isSome = true := by
  decide

/-- Claim C5: when the username already exists in the store, `register`
fails with the duplicate-username error (`DuplicateUsername` in the
spec's taxonomy, message `"Username already exists"` in the code) and
the store — in particular the `users` relation — is unchanged. -/
theorem register_duplicate_username_rejected (s : DBState)
    (data : RegisterRequest) (h : ∃ u ∈ s.users, u.username = data.username) :
    AuthService.register s data = (.error "Username already exists", s) := by
  obtain ⟨u, hu, hname⟩ := h
  have hfind : (SqliteAdapter.getUserByUsername s data.username).isSome := by
    unfold SqliteAdapter.getUserByUsername
    rw [List.find?_isSome]
    exact ⟨u, hu, by simp [hname]⟩
  obtain ⟨u', hu'⟩ := Option.isSome_iff_exists.mp hfind
  unfold AuthService.register
  rw [hu']

/-- Witness for C5: registering a second `"alice"` fails and leaves the
store unchanged. -/
theorem register_duplicate_username_rejected_witness :
    AuthService.register dbX
        { username := "alice", email := "a2@x.com", password := "p2" } =
      (.error "Username already exists", dbX) :=
  register_duplicate_username_rejected dbX
    { username := "alice", email := "a2@x.com", password := "p2" }
    ⟨alice, by decide, by decide⟩

/-- Claim C6: the failure outcome of `authenticateUser` for a
non-existent username and for a wrong password on an existing username
are the very same value — `Except.error "Invalid credentials"` — so the
two causes are indistinguishable to the caller. -/
theorem authenticateUser_failures_indistinguishable (s₁ s₂ : DBState)
    (d₁ d₂ : LoginRequest) (u : User)
    (h₁ : SqliteAdapter.getUserByUsername s₁ d₁.username = none)
    (h₂ : SqliteAdapter.getUserByUsername s₂ d₂.username = some u)
    (h₃ : bcryptCompare d₂.password u.password_hash = false) :
    AuthService.authenticateUser s₁ d₁ = .error "Invalid credentials" ∧
    AuthService.authenticateUser s₂ d₂ = .error "Invalid credentials" ∧
    AuthService.authenticateUser s₁ d₁ = AuthService.authenticateUser s₂ d₂ := by
  unfold AuthService.authenticateUser
  rw [h₁, h₂]
  simp [h₃]

/-- Witness for C6: unknown user `"bob"` and wrong password for
`"alice"` produce the identical error. -/
theorem authenticateUser_failures_indistinguishable_witness :
    AuthService.authenticateUser dbX { username := "bob", password := "x" } =
      .error "Invalid credentials" ∧
    AuthService.authenticateUser dbX { username := "alice", password := "wrong" } =
      .error "Invalid credentials" ∧
    AuthService.authenticateUser dbX { username := "bob", password := "x" } =
      AuthService.authenticateUser dbX { username := "alice", password := "wrong" } :=
  authenticateUser_failures_indistinguishable dbX dbX
    { username := "bob", password := "x" }
    { username := "alice", password := "wrong" } alice
    (by decide) (by decide) (by decide)

/-- Claim C7: round-trip — the access token minted by
`generateTokens(user)` verifies, at any instant before its `exp`, to a
payload whose `userId` and `username` are the input user's (the full
claim set is pinned down); at `exp` and beyond, verification yields
null. -/
theorem generateTokens_verifyAccessToken_roundtrip (svc : JWTService)
    (user : User) (tokenId : String) (now t : Nat) :
    (t < now + accessTokenTtl →
      JWTService.verifyAccessToken svc
          (JWTService.generateTokens svc user tokenId now).1 t =
        some { userId := user.id, username := some user.username
               roles := some (user.role.getD "guest"), jti := some tokenId
               iat := now, exp := now + accessTokenTtl }) ∧
    (now + accessTokenTtl ≤ t →
      JWTService.verifyAccessToken svc
          (JWTService.generateTokens svc user tokenId now).1 t = none) := by
  constructor
  · intro h
    simp [JWTService.verifyAccessToken, JWTService.generateTokens, jwtVerify, h]
  · intro h
    simp [JWTService.verifyAccessToken, JWTService.generateTokens, jwtVerify]
    omega

/-- Witness for C7: `accessX` (minted at 86,000,000 ms) verifies to
`alice`'s payload at 86,400,500 ms and to null at its expiry instant
86,900,000 ms. -/
theorem generateTokens_verifyAccessToken_roundtrip_witness :
    JWTService.verifyAccessToken svcX accessX 86400500 = some payloadX ∧
    JWTService.verifyAccessToken svcX accessX 86900000 = none := by
  constructor
  · exact (generateTokens_verifyAccessToken_roundtrip svcX alice "j0"
      86000000 86400500).1 (by decide)
  · exact (generateTokens_verifyAccessToken_roundtrip svcX alice "j0"
      86000000 86900000).2 (by decide)

/-- Claim C10 (bug evaluation): on the src/auth.ts chain the claim's
cited `logoutJWT` actually follows — `logoutJWT` →
`HybridSessionManager.destroyJWTSession` (lines 172-177) → the
src/auth.ts `JWTService.revokeToken` (lines 93-95) — a malformed token
is indeed handled without a throw and without touching the ledger (the
claim's first two parts hold), but a VALID access token carrying jti
`"j0"` makes `db.revokeToken(jti)` evaluate `toISOString` on the
omitted `expiresAt`: the call throws a TypeError and performs NO
ledger write — the store comes back unchanged — falsifying "a ledger
write occurs exactly when the token verifies and carries a jti".  The
src/session.ts `destroyJWTSession` (the claim's other citation) does
perform the upsert on the same input, witnessing the intended
behavior. -/
theorem logoutJWT_valid_token_throws_without_ledger_write :
    AuthService.logoutJWT svcX dbX (Token.malformed "zzz") 86000001 =
      (.ok (), dbX) ∧
    AuthService.logoutJWT svcX dbX accessX 86000001 =
      (.error "TypeError: undefined has no method toISOString", dbX) ∧
    ({ jti := "j0", revoked_at := 86000001, expires_at := 86000001 } : RevokedRow) ∈
      (SessionManager.destroyJWTSession svcX dbX accessX 86000001).revoked_tokens := by
  decide

/-- Claim C8: within one request the resolver's checks are strictly
ordered — its trace of store-backed credential checks is always a
sublist of `[token, cookie]`, so a cookie lookup never precedes the
bearer-token attempt; the cookie is consulted only when no identity was
resolved from a token and `preferJWT` is not set; and when neither
credential resolves, the middleware still calls `next()` and attaches no
identity (absence is a normal outcome, not a failure — the model is a
total function). -/
theorem hybridAuthMiddleware_token_before_cookie (svc : JWTService)
    (opts : MWOptions) (s : DBState) (now : Nat) (req : MWRequest) :
    (hybridAuthMiddleware svc opts s now req).trace.Sublist
        [Probe.token, Probe.cookie] ∧
    (hybridAuthMiddleware svc opts s now req).nextCalled = true ∧
    (Probe.cookie ∈ (hybridAuthMiddleware svc opts s now req).trace →
      opts.preferJWT = false ∧
      ∀ tok, req.bearer = some tok →
        SessionManager.validateJWTSession svc s tok opts.requireDbCheck now = none) ∧
    ((∀ tok, req.bearer = some tok →
        SessionManager.validateJWTSession svc s tok opts.requireDbCheck now = none) →
      (∀ sid, req.cookie_session_id = some sid →
        SessionManager.validateSession s sid now = none) →
      (hybridAuthMiddleware svc opts s now req).user = none) := by
  obtain ⟨bearer, cookie⟩ := req
  cases bearer with
  | none =>
    cases hpj : opts.preferJWT with
    | true => simp [hybridAuthMiddleware, hpj]
    | false =>
      cases cookie with
      | none => simp [hybridAuthMiddleware, hpj]
      | some sid =>
        cases hvs : SessionManager.validateSession s sid now with
        | none => simp [hybridAuthMiddleware, hpj, hvs]
        | some u => simp [hybridAuthMiddleware, hpj, hvs]
  | some tok =>
    cases hv : SessionManager.validateJWTSession svc s tok opts.requireDbCheck now with
    | none =>
      cases hpj : opts.preferJWT with
      | true => simp [hybridAuthMiddleware, hv, hpj]
      | false =>
        cases cookie with
        | none => simp [hybridAuthMiddleware, hv, hpj]
        | some sid =>
          cases hvs : SessionManager.validateSession s sid now with
          | none => simp [hybridAuthMiddleware, hv, hpj, hvs]
          | some u => simp [hybridAuthMiddleware, hv, hpj, hvs]
    | some u => simp [hybridAuthMiddleware, hv]

/-- Witness for C8: a request presenting neither credential proceeds
with no identity and `next()` called; a request with only a session
cookie has its cookie consulted, which certifies `preferJWT = false`. -/
theorem hybridAuthMiddleware_token_before_cookie_witness :
    (hybridAuthMiddleware svcX { preferJWT := false, requireDbCheck := false }
        dbX 86000000 { bearer := none, cookie_session_id := none }).trace.Sublist
      [Probe.token, Probe.cookie] ∧
    (hybridAuthMiddleware svcX { preferJWT := false, requireDbCheck := false }
        dbX 86000000 { bearer := none, cookie_session_id := none }).nextCalled = true ∧
    (hybridAuthMiddleware svcX { preferJWT := false, requireDbCheck := false }
        dbX 86000000 { bearer := none, cookie_session_id := none }).user = none ∧
    ({ preferJWT := false, requireDbCheck := false } : MWOptions).preferJWT = false := by
  have h := hybridAuthMiddleware_token_before_cookie svcX
    { preferJWT := false, requireDbCheck := false } dbX 86000000
    { bearer := none, cookie_session_id := none }
  have h2 := hybridAuthMiddleware_token_before_cookie svcX
    { preferJWT := false, requireDbCheck := false } dbX 86000000
    { bearer := none, cookie_session_id := some "sid" }
  exact ⟨h.1, h.2.1,
    h.2.2.2 (fun tok htok => Option.noConfusion htok)
      (fun sid hsid => Option.noConfusion hsid),
    (h2.2.2.1 (by decide)).1⟩

/-- Helper: when some requested item references a product id absent from
the product table, the item loop of `createOrder` throws the
missing-product error (the loop's own writes never touch `products`, so
the lookup table is the caller's). -/
theorem createOrderLoop_error_of_missing :
    ∀ (items : List OrderItemReq) (tx : DBState) (orderId : Nat) (total : ℚ),
      (∃ it ∈ items, SqliteAdapter.findProduct tx.products it.productId = none) →
      ∃ pid, SqliteAdapter.createOrderLoop tx orderId items total =
          .error ("Product " ++ toString pid ++ " not found") ∧
        SqliteAdapter.findProduct tx.products pid = none := by
  intro items
  induction items with
  | nil =>
    intro tx oid total h
    simp at h
  | cons item rest ih =>
    intro tx oid total h
    cases hp : SqliteAdapter.findProduct tx.products item.productId with
    | none =>
      exact ⟨item.productId, by simp [SqliteAdapter.createOrderLoop, hp], hp⟩
    | some p =>
      obtain ⟨it, hit, hnone⟩ := h
      rcases List.mem_cons.mp hit with heq | hmem
      · rw [heq] at hnone
        rw [hnone] at hp
        cases hp
      · have h' : ∃ it ∈ rest,
            SqliteAdapter.findProduct
              ({ tx with order_items := tx.order_items ++
                  [{ order_id := oid, product_id := item.productId
                     quantity := item.quantity, price := p.price }] } : DBState).products
              it.productId = none := ⟨it, hmem, hnone⟩
        obtain ⟨pid, hloop, hpid⟩ :=
          ih _ oid (total + p.price * (item.quantity : ℚ)) h'
        refine ⟨pid, ?_, hpid⟩
        rw [SqliteAdapter.createOrderLoop, hp]
        exact hloop

/-- Claim C4: a `createOrder` call whose item list references a
non-existent product id fails with the missing-product error (the
spec's `OrderConstraintViolation` class) and the transaction is rolled
back in full — the returned store is exactly the caller's store, so
zero new rows remain in `orders` and `order_items`. -/
theorem createOrder_rollback_on_missing_product (s : DBState) (userId : Nat)
    (items : List OrderItemReq) (h0 : s.nextOrderId ≠ 0)
    (h : ∃ it ∈ items, SqliteAdapter.findProduct s.products it.productId = none) :
    ∃ pid, (SqliteAdapter.createOrder s userId items).1 =
        .error ("Product " ++ toString pid ++ " not found") ∧
      SqliteAdapter.findProduct s.products pid = none ∧
      (SqliteAdapter.createOrder s userId items).2 = s := by
  obtain ⟨pid, hloop, hpid⟩ :=
    createOrderLoop_error_of_missing items
      ({ s with
          orders := s.orders ++
            [{ id := s.nextOrderId, user_id := userId, total_amount := 0
               status := "pending" }]
          nextOrderId := s.nextOrderId + 1 })
      s.nextOrderId 0 h
  refine ⟨pid, ?_, hpid, ?_⟩ <;>
    simp only [SqliteAdapter.createOrder, if_neg h0, hloop]

/-- Witness for C4: ordering product id 5, absent from `shopDB`, fails
with `"Product 5 not found"` and leaves the store unchanged. -/
theorem createOrder_rollback_on_missing_product_witness :
    ∃ pid, (SqliteAdapter.createOrder shopDB 1 [{ productId := 5, quantity := 1 }]).1 =
        .error ("Product " ++ toString pid ++ " not found") ∧
      SqliteAdapter.findProduct shopDB.products pid = none ∧
      (SqliteAdapter.createOrder shopDB 1 [{ productId := 5, quantity := 1 }]).2 = shopDB :=
  createOrder_rollback_on_missing_product shopDB 1
    [{ productId := 5, quantity := 1 }] (by decide)
    ⟨{ productId := 5, quantity := 1 }, by decide, by decide⟩

/-- Helper: a successful run of the item loop leaves `products` and
`orders` untouched, appends exactly one `order_items` row per requested
item — each carrying the enclosing order's id and the price read from
the product table — and returns the accumulator plus the sum of
`price × quantity` over the appended rows. -/
theorem createOrderLoop_ok_spec :
    ∀ (items : List OrderItemReq) (tx : DBState) (orderId : Nat) (total : ℚ)
      (tx' : DBState) (total' : ℚ),
      SqliteAdapter.createOrderLoop tx orderId items total = .ok (tx', total') →
      tx'.products = tx.products ∧ tx'.orders = tx.orders ∧
      ∃ rows : List OrderItemRow,
        tx'.order_items = tx.order_items ++ rows ∧
        total' = total + (rows.map (fun it => it.price * (it.quantity : ℚ))).sum ∧
        ∀ it ∈ rows, it.order_id = orderId ∧
          ∃ p, SqliteAdapter.findProduct tx.products it.product_id = some p ∧
            it.price = p.price := by
  intro items
  induction items with
  | nil =>
    intro tx oid total tx' total' h
    simp [SqliteAdapter.createOrderLoop] at h
    obtain ⟨h1, h2⟩ := h
    subst h1
    subst h2
    exact ⟨rfl, rfl, [], by simp, by simp, by simp⟩
  | cons item rest ih =>
    intro tx oid total tx' total' h
    cases hp : SqliteAdapter.findProduct tx.products item.productId with
    | none =>
      rw [SqliteAdapter.createOrderLoop, hp] at h
      cases h
    | some p =>
      rw [SqliteAdapter.createOrderLoop, hp] at h
      obtain ⟨hprod, hord, rows, hitems, htot, hmem⟩ :=
        ih _ oid (total + p.price * (item.quantity : ℚ)) tx' total' h
      refine ⟨hprod, hord,
        { order_id := oid, product_id := item.productId
          quantity := item.quantity, price := p.price } :: rows, ?_, ?_, ?_⟩
      · rw [hitems]
        simp
      · rw [htot]
        simp only [List.map_cons, List.sum_cons]
        ring
      · intro it hit
        rcases List.mem_cons.mp hit with heq | hmemit
        · subst heq
          exact ⟨rfl, p, hp, rfl⟩
        · exact hmem it hmemit

/-- Helper: `find?` on a list of order rows followed by one row whose id
matches, when no earlier row's id matches, returns that last row. -/
theorem find?_orderRow_append (l : List OrderRow) (r : OrderRow) (oid : Nat)
    (h : ∀ o ∈ l, o.id ≠ oid) (hr : r.id = oid) :
    (l ++ [r]).find? (fun o => o.id == oid) = some r := by
  induction l with
  | nil => simp [List.find?_cons, hr]
  | cons a as ih =>
    have ha : (a.id == oid) = false := by
      simpa using h a (List.mem_cons_self a as)
    simp only [List.cons_append, List.find?_cons, ha]
    exact ih (fun o ho => h o (List.mem_cons_of_mem a ho))

/-- Helper: the `UPDATE orders SET total_amount` rewrite keeps every
row's id. -/
theorem update_total_preserves_id (total : ℚ) (oid : Nat) (o : OrderRow) :
    ((if o.id == oid then { o with total_amount := total } else o) : OrderRow).id
      = o.id := by
  split <;> rfl

/-- Helper: the `UPDATE orders SET total_amount = ? WHERE id = ?` applied
to a table whose only matching row is the freshly inserted last one
rewrites exactly that row, and looking the id up afterwards finds it. -/
theorem find?_map_update (l : List OrderRow) (hdr : OrderRow) (oid : Nat)
    (total : ℚ) (h : ∀ o ∈ l, o.id ≠ oid) (hhdr : hdr.id = oid) :
    (((l ++ [hdr]).map (fun o =>
        if o.id == oid then { o with total_amount := total } else o)).find?
      (fun o => o.id == oid)) = some { hdr with total_amount := total } := by
  rw [List.map_append]
  have hsing : [hdr].map (fun o =>
      if o.id == oid then { o with total_amount := total } else o) =
      [{ hdr with total_amount := total }] := by
    simp [hhdr]
  rw [hsing]
  apply find?_orderRow_append
  · intro o ho
    obtain ⟨o₀, ho₀, rfl⟩ := List.mem_map.mp ho
    rw [update_total_preserves_id]
    exact h o₀ ho₀
  · exact hhdr

/-- Helper: `getOrderById` rewritten through a known `find?` result. -/
theorem getOrderById_of_find? (s : DBState) (oid : Nat) (r : OrderRow)
    (hfind : s.orders.find? (fun o => o.id == oid) = some r) :
    SqliteAdapter.getOrderById s oid =
      some { id := r.id, user_id := r.user_id, total_amount := r.total_amount
             status := r.status
             items := s.order_items.filter (fun it => it.order_id == oid) } := by
  simp only [SqliteAdapter.getOrderById, hfind]

/-- Claim C9: every order returned by a successful `createOrder` has
`total_amount` equal to the sum of `price × quantity` over its
`order_items`, and each item's recorded price is the referenced
product's price as read inside the transaction (the transaction writes
no product row, so that read equals a read from the caller's store).
The freshness hypotheses are the `AUTOINCREMENT` guarantee that the new
header's `lastID` collides with no existing row. -/
theorem createOrder_total_consistent (s : DBState) (userId : Nat)
    (items : List OrderItemReq) (o : Order) (s' : DBState)
    (hford : ∀ r ∈ s.orders, r.id ≠ s.nextOrderId)
    (hfit : ∀ it ∈ s.order_items, it.order_id ≠ s.nextOrderId)
    (h : SqliteAdapter.createOrder s userId items = (.ok o, s')) :
    o.total_amount = (o.items.map (fun it => it.price * (it.quantity : ℚ))).sum ∧
    ∀ it ∈ o.items,
      ∃ p, SqliteAdapter.findProduct s.products it.product_id = some p ∧
        it.price = p.price := by
  by_cases h0 : s.nextOrderId = 0
  · simp [SqliteAdapter.createOrder, h0] at h
  · rw [SqliteAdapter.createOrder] at h
    rw [if_neg h0] at h
    dsimp only [] at h
    cases hl : SqliteAdapter.createOrderLoop
        ({ s with
            orders := s.orders ++
              [{ id := s.nextOrderId, user_id := userId, total_amount := 0
                 status := "pending" }]
            nextOrderId := s.nextOrderId + 1 })
        s.nextOrderId items 0 with
    | error e =>
      rw [hl] at h
      cases h
    | ok pair =>
      obtain ⟨tx2, total⟩ := pair
      rw [hl] at h
      obtain ⟨hprod, hord, rows, hitems, htot, hmem⟩ :=
        createOrderLoop_ok_spec items _ s.nextOrderId 0 tx2 total hl
      dsimp only [] at h
      have horders : tx2.orders = s.orders ++
          [{ id := s.nextOrderId, user_id := userId, total_amount := 0
             status := "pending" }] := hord
      have hfind := find?_map_update s.orders
        { id := s.nextOrderId, user_id := userId, total_amount := 0, status := "pending" }
        s.nextOrderId total hford rfl
      rw [← horders] at hfind
      rw [getOrderById_of_find? _ _ _ hfind] at h
      dsimp only [] at h
      rw [Prod.mk.injEq] at h
      obtain ⟨h1, h2⟩ := h
      have ho : o = { id := s.nextOrderId, user_id := userId, total_amount := total
                      status := "pending"
                      items := tx2.order_items.filter
                        (fun it => it.order_id == s.nextOrderId) } :=
        (Except.ok.inj h1).symm
      have hnil : s.order_items.filter (fun it => it.order_id == s.nextOrderId) = [] := by
        rw [List.filter_eq_nil_iff]
        intro it hit
        simpa using hfit it hit
      have hself : rows.filter (fun it => it.order_id == s.nextOrderId) = rows := by
        rw [List.filter_eq_self]
        intro it hit
        simpa using (hmem it hit).1
      have hitems' : tx2.order_items.filter (fun it => it.order_id == s.nextOrderId) =
          rows := by
        rw [hitems]
        show (s.order_items ++ rows).filter (fun it => it.order_id == s.nextOrderId) = rows
        rw [List.filter_append, hnil, hself, List.nil_append]
      subst ho
      rw [hitems']
      constructor
      · rw [htot]
        simp
      · intro it hit
        exact (hmem it hit).2

/-- Witness for C9: ordering two Laptops (price 5) and one Mouse
(price 3) from `shopDB` yields `shopOrder`, whose total 13 is the sum of
`price × quantity` over its items and whose recorded prices match the
product table. -/
theorem createOrder_total_consistent_witness :
    shopOrder.total_amount =
      (shopOrder.items.map (fun it => it.price * (it.quantity : ℚ))).sum ∧
    ∀ it ∈ shopOrder.items,
      ∃ p, SqliteAdapter.findProduct shopDB.products it.product_id = some p ∧
        it.price = p.price :=
  createOrder_total_consistent shopDB 1
    [{ productId := 1, quantity := 2 }, { productId := 2, quantity := 1 }]
    shopOrder shopDBafter (by decide) (by decide)
    (by
      simp [SqliteAdapter.createOrder, SqliteAdapter.createOrderLoop,
            SqliteAdapter.getOrderById, SqliteAdapter.findProduct,
            shopDB, shopOrder, shopDBafter, List.find?, List.filter]
      norm_num)

end DenoStore
